import Mathlib

/-!
Verification development for the PostgreSQL-to-Snowflake SQL transpiler.

The Python sources (`code/functions/crosstabs.py`, `code/functions/dialect_converter.py`,
`code/functions/dbt_wrapper.py`) are shallowly embedded here.  Python strings are
modelled as `List Char`; each `re`-based operation of the source is embedded as a
dedicated scanner implementing exactly the semantics of the concrete pattern used
at that call site (matching is restricted to the ASCII fragment, which is the
alphabet the program actually manipulates).  Python's `set` has an unspecified
iteration order; the two `list(set(..))` conversions in `crosstabs.py` are
therefore parameterised by indices `k1 k2 : Nat` selecting a permutation of the
underlying element set, so theorems can quantify over every order the interpreter
could produce.  Fallible Python code is modelled with `Except PyErr`.
-/

set_option maxRecDepth 4000

namespace SqlTrans

/-- Python strings are modelled as lists of characters. -/
abbrev Str := List Char

/-- Convert a Lean string literal to the `Str` model. -/
def str (s : String) : Str := s.data

/-- Python `\s` / `str.split()` whitespace, ASCII fragment. -/
def isWs (c : Char) : Bool :=
  c = ' ' || c = '\t' || c = '\n' || c = '\r' || c = '\x0b' || c = '\x0c'

/-- Python regex `\w`, ASCII fragment: letters, digits, underscore. -/
def isWordChar (c : Char) : Bool :=
  ('a' ≤ c && c ≤ 'z') || ('A' ≤ c && c ≤ 'Z') || ('0' ≤ c && c ≤ '9') || c = '_'

/-- Regex class `[a-zA-Z_]` (first character of an identifier). -/
def isIdentStart (c : Char) : Bool :=
  ('a' ≤ c && c ≤ 'z') || ('A' ≤ c && c ≤ 'Z') || c = '_'

/-- Regex class `\d`. -/
def isDigitChar (c : Char) : Bool := '0' ≤ c && c ≤ '9'

/-- ASCII lower-casing of one character (Python `str.lower` on the ASCII range). -/
def lowerC (c : Char) : Char :=
  if 'A' ≤ c && c ≤ 'Z' then Char.ofNat (c.toNat + 32) else c

/-- ASCII upper-casing of one character (Python `str.upper` on the ASCII range). -/
def upperC (c : Char) : Char :=
  if 'a' ≤ c && c ≤ 'z' then Char.ofNat (c.toNat - 32) else c

/-- Python `str.lower()`. -/
def lowerStr (s : Str) : Str := s.map lowerC

/-- Python `str.upper()`. -/
def upperStr (s : Str) : Str := s.map upperC

/-- Does `s` start with `pat` (case-sensitive)? -/
def startsWith : Str → Str → Bool
  | [], _ => true
  | _ :: _, [] => false
  | p :: ps, c :: cs => p = c && startsWith ps cs

/-- Does `s` start with `pat`, compared case-insensitively (ASCII)? -/
def startsWithCI (pat s : Str) : Bool := startsWith (lowerStr pat) (lowerStr s)

/-- Index of the first occurrence of `pat` in `s` (Python `str.find` ≥ 0 case). -/
def findSub : Str → Str → Option Nat
  | s, pat =>
    if startsWith pat s then some 0
    else match s with
      | [] => none
      | _ :: t => (findSub t pat).map (· + 1)

/-- Index of the first case-insensitive occurrence of `pat` in `s`. -/
def findSubCI (s pat : Str) : Option Nat := findSub (lowerStr s) (lowerStr pat)

/-- Python `pat in s` (substring containment). -/
def containsStr (s pat : Str) : Bool := (findSub s pat).isSome

/-- Python `str.strip()` (whitespace at both ends). -/
def pyStrip (s : Str) : Str :=
  ((s.dropWhile isWs).reverse.dropWhile isWs).reverse

/-- Python `str.rstrip(chars)`: drop trailing characters belonging to `chars`. -/
def pyRstrip (chars : List Char) (s : Str) : Str :=
  (s.reverse.dropWhile (chars.contains ·)).reverse

/-- Python `str.strip(chars)`: drop characters belonging to `chars` at both ends. -/
def pyStripChars (chars : List Char) (s : Str) : Str :=
  ((s.dropWhile (chars.contains ·)).reverse.dropWhile (chars.contains ·)).reverse

/-- Python `str.replace(pat, rep)` for a non-empty `pat`
(empty patterns never occur in the embedded code; they are returned unchanged). -/
def pyReplace (s pat rep : Str) : Str :=
  if pat.isEmpty then s else go s.length s
where
  go : Nat → Str → Str
    | 0, s => s
    | fuel + 1, s =>
      if startsWith pat s then rep ++ go fuel (s.drop pat.length)
      else match s with
        | [] => []
        | c :: t => c :: go fuel t

/-- Helper for `pySplitWs`: `cur` is the current token accumulated in reverse. -/
def pySplitWsAux : Str → Str → List Str
  | [], cur => if cur.isEmpty then [] else [cur.reverse]
  | c :: t, cur =>
    if isWs c then
      if cur.isEmpty then pySplitWsAux t [] else cur.reverse :: pySplitWsAux t []
    else pySplitWsAux t (c :: cur)

/-- Python `str.split()` (split on whitespace runs, no empty fields). -/
def pySplitWs (s : Str) : List Str := pySplitWsAux s []

/-- Python `str.split(sep)` for a single-character separator (keeps empty fields). -/
def pySplitChar (sep : Char) : Str → List Str
  | [] => [[]]
  | c :: rest =>
    match pySplitChar sep rest with
    | [] => [[c]]
    | h :: t => if c = sep then [] :: h :: t else (c :: h) :: t

/-- `item.split(' ')[0]` on an already stripped `item`: the prefix before the first space. -/
def takeTillSpace (s : Str) : Str := s.takeWhile (· ≠ ' ')

/-- All ways of inserting `a` into a list (helper for `perms`). -/
def insertEverywhere {α : Type} (a : α) : List α → List (List α)
  | [] => [[a]]
  | x :: xs => (a :: x :: xs) :: (insertEverywhere a xs).map (x :: ·)

/-- All permutations of a list (kernel-reducible, unlike `List.permutations`). -/
def perms {α : Type} : List α → List (List α)
  | [] => [[]]
  | x :: xs => (perms xs).flatMap (insertEverywhere x)

/-- `list(set(xs))` in Python enumerates the distinct elements of `xs` in an
unspecified order; `pyPerm k` selects the `k`-th permutation of the canonical
(first-occurrence, deduplicated) enumeration, so that quantifying over `k`
covers every order the interpreter could produce. -/
def pyPerm (k : Nat) (xs : List Str) : List Str :=
  (perms xs).getD (k % (perms xs).length) xs

/-- Exceptions of the embedded Python code. -/
inductive PyErr where
  | indexError
  | parseError
  | genError
  deriving DecidableEq, Repr

/-!
## crosstabs.py

Scanners for the regex patterns of `parse_crosstab_sql`, then the function itself.
-/

/-- `re.findall(r'\$\$(.*?)\$\$', s, re.DOTALL)`: the non-overlapping `$$`-delimited
blocks, each capture running to the nearest closing `$$`. -/
def findDollarBlocks (s : Str) : List Str :=
  go s.length s
where
  go : Nat → Str → List Str
    | 0, _ => []
    | fuel + 1, s =>
      match findSub s (str "$$") with
      | none => []
      | some i =>
        let rest := s.drop (i + 2)
        match findSub rest (str "$$") with
        | none => []
        | some j => rest.take j :: go fuel (rest.drop (j + 2))

/-- `re.search(a + '(.*?)' + b, s, re.IGNORECASE | re.DOTALL)` for literal words
`a`, `b`: capture between the first occurrence of `a` and the earliest following
`b`.  Used for `SELECT(.*?)FROM` and `FROM(.*?)ORDER`. -/
def searchBetween (a b s : Str) : Option Str :=
  match findSubCI s a with
  | none => none
  | some i =>
    let r := s.drop (i + a.length)
    match findSubCI r b with
    | none => none
    | some j => some (r.take j)

/-- Attempt pattern `\)\s*as\s+(?:\w+\s*)?\(\s*(.*?)\s*\)` at the head of `s`
(which must start with `)`); returns the trimmed capture. -/
def asColsAt (s : Str) : Option Str :=
  match s with
  | ')' :: r =>
    let r1 := r.dropWhile isWs
    if startsWithCI (str "as") r1 then
      let r2 := r1.drop 2
      let ws := r2.takeWhile isWs
      if ws.isEmpty then none
      else
        let r3 := r2.dropWhile isWs
        let r4 :=
          match r3 with
          | c :: _ => if isWordChar c then (r3.dropWhile isWordChar).dropWhile isWs else r3
          | [] => r3
        match r4 with
        | '(' :: r5 =>
          let inner := r5.takeWhile (· ≠ ')')
          if (r5.drop inner.length).isEmpty then none else some (pyStrip inner)
        | _ => none
    else none
  | _ => none

/-- `re.search(pattern_2, s, re.IGNORECASE | re.DOTALL)`: leftmost position at
which `asColsAt` succeeds. -/
def searchAsCols (s : Str) : Option Str :=
  go s.length s
where
  go : Nat → Str → Option Str
    | 0, _ => none
    | _, [] => none
    | fuel + 1, c :: t =>
      match asColsAt (c :: t) with
      | some r => some r
      | none => go fuel t

/-- Indexes of all `)` characters of `s`. -/
def parenIdxs (s : Str) : List Nat :=
  (s.enum.filter (fun p => p.2 = ')')).map (·.1)

/-- Attempt pattern `(WITH\s+.*\))\s*(?=SELECT|FROM|$)` (IGNORECASE, DOTALL) at
the head of `s`: `s` must start with `WITH` followed by whitespace; the greedy
`.*\)` ends at the last `)` whose trailing text, after skipping whitespace, is
empty or begins with `SELECT`/`FROM`.  Returns (match end offset, group 1). -/
def searchWithAt (s : Str) : Option (Nat × Str) :=
  if startsWithCI (str "with") s then
    match s.drop 4 with
    | c :: _ =>
      if isWs c then
        let cands := ((parenIdxs s).filter (fun j => 5 ≤ j)).reverse
        go cands
      else none
    | [] => none
  else none
where
  go : List Nat → Option (Nat × Str)
    | [] => none
    | j :: rest =>
      let after := strAfter j
      let wsRun := after.takeWhile isWs
      let r := after.drop wsRun.length
      if r.isEmpty || startsWithCI (str "select") r || startsWithCI (str "from") r then
        some (j + 1 + wsRun.length, strTake j)
      else go rest
  strAfter (j : Nat) : Str := s.drop (j + 1)
  strTake (j : Nat) : Str := s.take (j + 1)

/-- `re.search(pattern_6, s, ...)`: leftmost position at which `searchWithAt`
succeeds; the returned end offset is absolute in `s`. -/
def searchWith (s : Str) : Option (Nat × Str) :=
  go s.length 0 s
where
  go : Nat → Nat → Str → Option (Nat × Str)
    | 0, _, _ => none
    | _, _, [] => none
    | fuel + 1, i, c :: t =>
      match searchWithAt (c :: t) with
      | some (e, g) => some (i + e, g)
      | none => go fuel (i + 1) t

/-- First match of `\s+as\s+` (IGNORECASE) in `s`: returns (start, end) offsets. -/
def findAsSep (s : Str) : Option (Nat × Nat) :=
  go s.length 0 s
where
  go : Nat → Nat → Str → Option (Nat × Nat)
    | 0, _, _ => none
    | _, _, [] => none
    | fuel + 1, i, c :: t =>
      if isWs c then
        let run := (c :: t).takeWhile isWs
        let r := (c :: t).drop run.length
        if startsWithCI (str "as") r then
          let r2 := r.drop 2
          let run2 := r2.takeWhile isWs
          if run2.isEmpty then go fuel (i + 1) t
          else some (i, i + run.length + 2 + run2.length)
        else go fuel (i + 1) t
      else go fuel (i + 1) t

/-- `re.split(r'\s+as\s+', s, flags=re.IGNORECASE)`. -/
def splitAsSep (s : Str) : List Str :=
  go s.length s
where
  go : Nat → Str → List Str
    | 0, s => [s]
    | fuel + 1, s =>
      match findAsSep s with
      | none => [s]
      | some (i, e) => s.take i :: go fuel (s.drop e)

/-- `re.search(r'\s+as\s+', s, re.IGNORECASE)` viewed as a Boolean test. -/
def hasAsSep (s : Str) : Bool := (findAsSep s).isSome

/-- The character loop of `parse_crosstab_sql`: split the CTE SELECT list on
commas at `()`/`[]` nesting depth 0, stripping each field; the final field is
kept only if non-empty after stripping. -/
def depthSplit (s : Str) : List Str :=
  go s 0 [] []
where
  go : Str → Int → Str → List Str → List Str
    | [], _, cur, acc => if (pyStrip cur).isEmpty then acc else acc ++ [pyStrip cur]
    | c :: rest, d, cur, acc =>
      if c = '(' || c = '[' then go rest (d + 1) (cur ++ [c]) acc
      else if c = ')' || c = ']' then go rest (d - 1) (cur ++ [c]) acc
      else if c = ',' && d = 0 then go rest d [] (acc ++ [pyStrip cur])
      else go rest d (cur ++ [c]) acc

/-- One keyword alternative of pattern 5 matched at the head of `s`:
returns (matched keyword text, rest) or `none`. -/
def matchKwAlt (ws : List Str) (s : Str) : Option (Str × Str) :=
  match ws with
  | [] => some ([], s)
  | [w] =>
    if startsWithCI w s then some (s.take w.length, s.drop w.length) else none
  | w :: rest =>
    if startsWithCI w s then
      let r := s.drop w.length
      let run := r.takeWhile isWs
      if run.isEmpty then none
      else
        match matchKwAlt rest (r.drop run.length) with
        | some (t, r') => some (s.take w.length ++ run ++ t, r')
        | none => none
    else none

/-- Negative lookahead `(?!\s+LATERAL)` after a JOIN keyword. -/
def lateralAhead (s : Str) : Bool :=
  let run := s.takeWhile isWs
  !run.isEmpty && startsWithCI (str "lateral") (s.drop run.length)

/-- The keyword group of pattern 5
`(FROM|JOIN(?!\s+LATERAL)|LEFT\s+JOIN(?!\s+LATERAL)|...)`, alternatives tried
in source order. -/
def matchKw (s : Str) : Option (Str × Str) :=
  match matchKwAlt [str "from"] s with
  | some r => some r
  | none =>
    let joinAlts := [[str "join"], [str "left", str "join"], [str "right", str "join"],
      [str "inner", str "join"], [str "outer", str "join"], [str "full", str "join"],
      [str "cross", str "join"]]
    go joinAlts
where
  go : List (List Str) → Option (Str × Str)
    | [] => none
    | alt :: rest =>
      match matchKwAlt alt s with
      | some (t, r) => if lateralAhead r then go rest else some (t, r)
      | none => go rest

/-- Pattern 5 matched at the head of `s` (word boundary before `s` checked by the
caller): keyword group, `\s+`, identifier `[a-zA-Z_][\w]*`, then negative
lookahead `(?!\s*\.|\s*\(|::)`.  Returns (whole match, keyword, identifier, rest). -/
def matchTableRef (s : Str) : Option (Str × Str × Str × Str) :=
  match matchKw s with
  | none => none
  | some (kw, r) =>
    let run := r.takeWhile isWs
    if run.isEmpty then none
    else
      let r1 := r.drop run.length
      match r1 with
      | c :: _ =>
        if isIdentStart c then
          let ident := c :: (r1.drop 1).takeWhile isWordChar
          let r2 := r1.drop ident.length
          let afterWs := r2.dropWhile isWs
          if startsWith (str ".") afterWs || startsWith (str "(") afterWs
              || startsWith (str "::") r2 then none
          else some (kw ++ run ++ ident, kw, ident, r2)
        else none
      | [] => none

/-- `re.findall(pattern_5, s, re.IGNORECASE | re.DOTALL)`: the (keyword,
identifier) pairs of all non-overlapping matches, scanning left to right with a
word boundary required before each match. -/
def findall5 (s : Str) : List (Str × Str) :=
  go s.length false s
where
  go : Nat → Bool → Str → List (Str × Str)
    | 0, _, _ => []
    | _, _, [] => []
    | fuel + 1, prevWord, c :: t =>
      if !prevWord && isWordChar c then
        match matchTableRef (c :: t) with
        | some (_, kw, ident, rest) => (kw, ident) :: go fuel true rest
        | none => go fuel (isWordChar c) t
      else go fuel (isWordChar c) t

/-- The intermediate data `parse_crosstab_sql` computes before the two
`list(set(...))` conversions (everything whose failure produces an early
`return ''`). -/
structure CtPre where
  cteStatement : Str
  withStatement : Option Str
  pivotCol : Str
  fromStatements : Str
  outputCols : List Str
  inputCols : List Str
  deriving DecidableEq, Repr

/-- The WITH-clause split applied to the first `$$` block (lines 36–42 of
`crosstabs.py`): when pattern 6 matches, the text from the match end, stripped;
otherwise the block unchanged. -/
def ctCteOf (s0 : Str) : Str :=
  match searchWith s0 with
  | some (e, _) => pyStrip (s0.drop e)
  | none => s0

/-- Lines 59–68 of `crosstabs.py`: the declared-output-column names obtained
from the `) as ... ( ... )` capture `sa`. -/
def ctOutputCols (sa : Str) : List Str :=
  (pySplitChar ','
      (pyStrip (pyReplace (pyReplace (pyStrip sa) (str "(") []) (str ";") []))).map
    (fun item => takeTillSpace (pyStrip item))

/-- Lines 70–104 of `crosstabs.py`: the input column names obtained from the
CTE SELECT-list capture `cs` (aliasN after the first ` as `, else the leading
token). -/
def ctInputCols (cs : Str) : List Str :=
  (depthSplit (pyStrip cs)).map (fun item =>
    if hasAsSep item then pyStrip ((splitAsSep item).getD 1 [])
    else takeTillSpace (pyStrip item))

/-- Lines 17–104 of `crosstabs.py`: block extraction, the JOIN check, the four
regex extractions, the declared-output-column split and the CTE SELECT-list
split.  `none` corresponds to every early `return ''` of the source. -/
def ctPreamble (sqlContent : Str) : Option CtPre :=
  match findDollarBlocks sqlContent with
  | s0 :: s1 :: _ =>
    if containsStr (upperStr s1) (str "JOIN") then none
    else
      match searchBetween (str "SELECT") (str "FROM") s1 with
      | none => none
      | some pc =>
        match searchBetween (str "FROM") (str "ORDER") s1 with
        | none => none
        | some fs =>
          match searchAsCols sqlContent with
          | none => none
          | some sa =>
            match searchBetween (str "SELECT") (str "FROM") (ctCteOf s0) with
            | none => none
            | some cs =>
              some ⟨ctCteOf s0, (searchWith s0).map (·.2), pyStrip pc, pyStrip fs,
                ctOutputCols sa, ctInputCols cs⟩
  | _ => none

/-- The element set of `set(input_cols) - set(output_cols)` in canonical
(first-occurrence) order. -/
def ctPivotAxisCanon (pre : CtPre) : List Str :=
  (pre.inputCols.filter (fun c => !pre.outputCols.contains c)).dedup

/-- `cols_to_pivot = list(set(input_cols) - set(output_cols))`, with `k1`
selecting the enumeration order of the Python set. -/
def ctPivotAxis (k1 : Nat) (pre : CtPre) : List Str := pyPerm k1 (ctPivotAxisCanon pre)

/-- The element set of `set(input_cols) & set(output_cols)` in canonical order. -/
def ctDimsCanon (pre : CtPre) : List Str :=
  (pre.inputCols.filter (fun c => pre.outputCols.contains c)).dedup

/-- `cols_to_select = list(set(input_cols) & set(output_cols))`, with `k2`
selecting the enumeration order of the Python set. -/
def ctDims (k2 : Nat) (pre : CtPre) : List Str := pyPerm k2 (ctDimsCanon pre)

/-- The `str_dbt_get_column_values` template literal of `crosstabs.py`
(backslash-newline continuations inside the Python literal keep the 8-space
indentation of the following line). -/
def ctTemplate : Str :=
  str "\x7b\x7b dbt_utils.pivot('<pivot_col>',        dbt_utils.get_column_values(ref('<input_model>'),'categorie',default=[]),        agg='',        then_value='<value_col>',        else_value=\"ARRAY_CONSTRUCT()\",        quote_identifiers=False)\x7d\x7d "

/-- The `idx`-indexed join loop over `cols_to_select` (`", "`-separated). -/
def joinCommaSpace : List Str → Str
  | [] => []
  | [c] => c
  | c :: rest => c ++ str ", " ++ joinCommaSpace rest

/-- `parse_crosstab_sql` (crosstabs.py, lines 3–140).  `k1`, `k2` select the
iteration order of the two Python sets; `.error .indexError` models the
uncaught `cols_to_pivot[1]` IndexError, `.ok []` models every early
`return ''`. -/
def parse_crosstab_sql (k1 k2 : Nat) (sqlContent : Str) : Except PyErr Str :=
  match ctPreamble sqlContent with
  | none => .ok []
  | some pre =>
    let str1 := pyReplace (pyReplace ctTemplate (str "<pivot_col>") pre.pivotCol)
      (str "<input_model>") pre.fromStatements
    let colsToPivot := ctPivotAxis k1 pre
    if colsToPivot.length < 2 then .error .indexError
    else
      let str2 := pyReplace str1 (str "<value_col>") (colsToPivot.getD 1 [])
      let selectCol := joinCommaSpace (ctDims k2 pre)
      let table := findall5 pre.cteStatement
      let cte' :=
        match pre.withStatement with
        | some w => w ++ str "\n ,cte1 AS (\n" ++ pre.cteStatement ++ str "\n)\n"
        | none =>
          let c2 := table.foldl
            (fun acc t => pyReplace acc t.2 (str "\x7b\x7b ref('" ++ t.2 ++ str "') \x7d\x7d"))
            pre.cteStatement
          str "WITH cte1 AS (\n" ++ c2 ++ str ")\n"
      let scc := pyStrip (pyRstrip [',', ' '] selectCol)
      .ok (cte' ++ str "SELECT " ++ scc ++ str "\n, " ++ str2
        ++ str "\nFROM cte1\nGROUP BY " ++ scc)

/-!
## dialect_converter.py: handle_crosstab
-/

/-- `re.sub(r'--[^\n]*', '', sql)`: remove `--` line comments. -/
def stripLineComments (s : Str) : Str :=
  go s.length s
where
  go : Nat → Str → Str
    | 0, s => s
    | fuel + 1, s =>
      if startsWith (str "--") s then go fuel ((s.drop 2).dropWhile (· ≠ '\n'))
      else match s with
        | [] => []
        | c :: t => c :: go fuel t

/-- The inert placeholder emitted by `handle_crosstab` when `parse_crosstab_sql`
raises. -/
def crosstabPlaceholder : Str :=
  str "\x7b# WARNING: crosstab() block could not be converted, skipped for dbt compile #\x7d"

/-- `handle_crosstab` (dialect_converter.py, lines 148–164): strip `--` comments,
run `parse_crosstab_sql`, and on any exception return the placeholder comment. -/
def handle_crosstab (k1 k2 : Nat) (sql : Str) : Str :=
  match parse_crosstab_sql k1 k2 (stripLineComments sql) with
  | .ok s => s
  | .error _ => crosstabPlaceholder

/-!
## Concrete inputs used by witnesses and counterexamples
-/

/-- A crosstab input whose CTE SELECT list leaves three pivot-axis columns
(`categorie`, `val`, `extra`) after removing the single declared output column
`id`. -/
def c1input : Str :=
  str "$$SELECT id, categorie, val, extra FROM tabel$$ x $$SELECT categorie FROM catq ORDER BY 1$$ ) as t ( id int )"

/-- The preamble data `parse_crosstab_sql` extracts from `c1input`. -/
def c1pre : CtPre :=
  ⟨str "SELECT id, categorie, val, extra FROM tabel", none, str "categorie", str "catq",
    [str "id"], [str "id", str "categorie", str "val", str "extra"]⟩

/-- A crosstab input whose pivot statement contains a JOIN. -/
def c3input : Str :=
  str "$$SELECT a FROM t$$ x $$SELECT c FROM q JOIN r ORDER BY 1$$ ) as t ( a int )"

/-- A crosstab input with a single pivot-axis column (`val`), triggering the
`cols_to_pivot[1]` IndexError. -/
def cwinput : Str :=
  str "$$SELECT id, val FROM t$$ x $$SELECT c FROM q ORDER BY 1$$ ) as t ( id int )"

/-- Did the embedded call return normally with a non-empty string? -/
def isOkNonEmpty : Except PyErr Str → Bool
  | .ok s => !s.isEmpty
  | .error _ => false

/-!
## dialect_converter.py: the FixedSnowflake generator (Dialect Override Layer)
-/

/-- AST nodes relevant to the overridden serializer methods of
`FixedSnowflake.Generator`.  `raw` stands for any other sqlglot node, carrying
an opaque payload serialized by the base generator. -/
inductive Expr where
  | raw (s : Str)
  | lit (name : Str) (isString : Bool)
  | cast (e : Expr) (toInterval : Bool)
  | interval (value : Str) (unit : Option Str)
  | arrayE (elems : List Expr)
  | anyE (e : Expr)
  | eq (l r : Expr)
  | func (name : Str) (args : List Expr)

/-- The base `Snowflake.Generator` of the external sqlglot library, reached by
the `super()` calls and by non-overridden node kinds: an opaque collaborator
with one serialization field per call site. -/
structure BaseGen where
  castD : Expr → Bool → Str
  eqD : Expr → Expr → Str
  funcD : Str → List Expr → Str
  litD : Str → Bool → Str
  rawD : Str → Str
  anyD : Expr → Str
  intervalD : Str → Option Str → Str

/-- A base generator whose opaque serializations are the identity on `raw`
payloads (used to instantiate witnesses). -/
def idBase : BaseGen where
  castD := fun _ _ => []
  eqD := fun _ _ => []
  funcD := fun _ _ => []
  litD := fun s _ => s
  rawD := fun s => s
  anyD := fun _ => []
  intervalD := fun _ _ => []

/-- Attempt `re.search(r"INTERVAL\s+'(\d+)\s+(\w+)'", step, re.IGNORECASE)` at
the head of `s`; returns the two captures. -/
def intervalMatchAt (s : Str) : Option (Str × Str) :=
  if startsWithCI (str "interval") s then
    let r := s.drop 8
    let run := r.takeWhile isWs
    if run.isEmpty then none
    else
      match r.drop run.length with
      | '\'' :: r2 =>
        let ds := r2.takeWhile isDigitChar
        if ds.isEmpty then none
        else
          let r3 := r2.drop ds.length
          let run2 := r3.takeWhile isWs
          if run2.isEmpty then none
          else
            let r4 := r3.drop run2.length
            let w := r4.takeWhile isWordChar
            if w.isEmpty then none
            else
              match r4.drop w.length with
              | '\'' :: _ => some (ds, w)
              | _ => none
      | _ => none
  else none

/-- The full `re.search` for the interval-step pattern: leftmost match. -/
def intervalFind (s : Str) : Option (Str × Str) :=
  go s.length s
where
  go : Nat → Str → Option (Str × Str)
    | 0, _ => none
    | _, [] => none
    | fuel + 1, c :: t =>
      match intervalMatchAt (c :: t) with
      | some r => some r
      | none => go fuel t

/-- Python rendering of an optional serialized argument inside an f-string
(`None` prints as `None`). -/
def optStr : Option Str → Str
  | some s => s
  | none => str "None"

/-- The date-series row count `DATEDIFF({unit}, {start}, {end}) / {n} + 1`. -/
def dateRowCount (u start : Str) (endA : Option Str) (n : Str) : Str :=
  str "DATEDIFF(" ++ upperStr u ++ str ", " ++ start ++ str ", " ++ optStr endA
    ++ str ") / " ++ n ++ str " + 1"

/-- The date-series projection `DATEADD({unit}, SEQ4() * {n}, {start})`. -/
def dateProj (u n start : Str) : Str :=
  str "DATEADD(" ++ upperStr u ++ str ", SEQ4() * " ++ n ++ str ", " ++ start ++ str ")"

/-- The numeric-series row count `(({end}) - ({start})) / ({step}) + 1`. -/
def numRowCount (start : Str) (endA : Option Str) (step : Str) : Str :=
  str "((" ++ optStr endA ++ str ") - (" ++ start ++ str ")) / (" ++ step ++ str ") + 1"

/-- The numeric-series projection `({start}) + SEQ4() * ({step})`. -/
def numProj (start step : Str) : Str :=
  str "(" ++ start ++ str ") + SEQ4() * (" ++ step ++ str ")"

/-- Lines 70–100 of `dialect_converter.py`: the `generate_series` branch of
`function_sql`, given the already serialized arguments (`none` when an argument
was absent; the step defaults to the numeric `"1"`). -/
def genSeriesFromParts (start : Str) (endA stepA : Option Str) : Str :=
  let step := stepA.getD (str "1")
  match intervalFind step with
  | some (n, u) =>
    str "TABLE(GENERATOR(ROWCOUNT => " ++ dateRowCount u start endA n
      ++ str ")) AS g, LATERAL (SELECT " ++ dateProj u n start ++ str " AS a) AS s"
  | none =>
    str "TABLE(GENERATOR(ROWCOUNT => " ++ numRowCount start endA step
      ++ str ")) AS g, LATERAL (SELECT " ++ numProj start step ++ str " AS a) AS s"

/-- Lines 19–29 of `dialect_converter.py`: the interval-cast branch of
`cast_sql` for a string literal `name` (the literal's text), quote-stripped and
split on whitespace. -/
def intervalCastSql (b : BaseGen) (name : Str) : Str :=
  if 2 ≤ (pySplitWs (pyStripChars ['\'', '"'] name)).length then
    str "INTERVAL '" ++ pyStripChars ['\'', '"'] name ++ str "'"
  else if (pySplitWs (pyStripChars ['\'', '"'] name)).length = 1 then
    str "INTERVAL '" ++ (pySplitWs (pyStripChars ['\'', '"'] name)).getD 0 [] ++ str " days'"
  else b.castD (.lit name true) true

/-- `self.expressions(expression, flat=True)`: serialize a list of
sub-expressions with the given serializer, propagating the first error. -/
def genListAux (f : Expr → Except PyErr Str) : List Expr → Except PyErr (List Str)
  | [] => .ok []
  | e :: es =>
    match f e with
    | .error err => .error err
    | .ok s =>
      match genListAux f es with
      | .error err => .error err
      | .ok ss => .ok (s :: ss)

/-- The overridden serializer of `FixedSnowflake.Generator` (`self.sql`):
`cast_sql`, `interval_sql`, `array_sql`, `eq_sql` and `function_sql` as in the
source, falling back to the opaque base generator elsewhere.  Errors model
uncaught Python exceptions (the `args[0]` IndexError of a zero-argument
`generate_series`).  Recursion is bounded by an explicit `fuel` (any bound at
least the expression depth is exact; `genTop` supplies one). -/
def genE (b : BaseGen) : Nat → Expr → Except PyErr Str
  | 0, _ => .error .genError
  | fuel + 1, ex =>
    match ex with
    | .raw s => .ok (b.rawD s)
    | .lit name isString => .ok (b.litD name isString)
    | .interval v u =>
      match u with
      | some un => .ok (str "INTERVAL '" ++ v ++ str "' " ++ un)
      | none => .ok (str "INTERVAL '" ++ v ++ str "'")
    | .cast e toInterval =>
      if toInterval then
        match e with
        | .lit name true => .ok (intervalCastSql b name)
        | e => .ok (b.castD e toInterval)
      else .ok (b.castD e toInterval)
    | .arrayE es =>
      match genListAux (genE b fuel) es with
      | .error e => .error e
      | .ok ss => .ok (str "ARRAY_CONSTRUCT(" ++ joinCommaSpace ss ++ str ")")
    | .anyE e => .ok (b.anyD e)
    | .eq l r =>
      match r with
      | .anyE inner =>
        match genE b fuel l with
        | .error e => .error e
        | .ok v =>
          match genE b fuel inner with
          | .error e => .error e
          | .ok a => .ok (str "ARRAY_CONTAINS(TO_VARIANT(" ++ v ++ str "), " ++ a ++ str ")")
      | r => .ok (b.eqD l r)
    | .func name args =>
      if lowerStr name = str "generate_series" then
        match args with
        | [] => .error .indexError
        | a0 :: rest =>
          match genE b fuel a0 with
          | .error e => .error e
          | .ok start =>
            match rest with
            | [] => .ok (genSeriesFromParts start none none)
            | a1 :: rest2 =>
              match genE b fuel a1 with
              | .error e => .error e
              | .ok e1 =>
                match rest2 with
                | [] => .ok (genSeriesFromParts start (some e1) none)
                | a2 :: _ =>
                  match genE b fuel a2 with
                  | .error e => .error e
                  | .ok e2 => .ok (genSeriesFromParts start (some e1) (some e2))
      else .ok (b.funcD name args)

mutual

/-- Size of an expression (an upper bound for the recursion depth of `genE`). -/
def exprSize : Expr → Nat
  | .raw _ => 1
  | .lit _ _ => 1
  | .interval _ _ => 1
  | .cast e _ => exprSize e + 1
  | .arrayE es => exprListSize es + 1
  | .anyE e => exprSize e + 1
  | .eq l r => exprSize l + exprSize r + 1
  | .func _ args => exprListSize args + 1

/-- Total size of a list of expressions. -/
def exprListSize : List Expr → Nat
  | [] => 0
  | e :: t => exprSize e + exprListSize t

end

/-- The serializer with sufficient fuel (`exprSize` bounds the depth). -/
def genTop (b : BaseGen) (e : Expr) : Except PyErr Str := genE b (exprSize e) e

/-!
## dialect_converter.py: textual pre-passes and convert_postgres_to_snowflake
-/

/-- Join with a separator (Python `sep.join`). -/
def joinWith (sep : Str) : List Str → Str
  | [] => []
  | [x] => x
  | x :: rest => x ++ sep ++ joinWith sep rest

/-- `re.findall(r"'[^']*'|\"[^\"]*\"|\S+", s)`: array elements, quoted
substrings kept atomic, alternatives tried in pattern order. -/
def unnestTokens (s : Str) : List Str :=
  go s.length s
where
  go : Nat → Str → List Str
    | 0, _ => []
    | _, [] => []
    | fuel + 1, c :: t =>
      if c = '\'' then
        match findSub t (str "'") with
        | some j => ('\'' :: (t.take j ++ ['\''])) :: go fuel (t.drop (j + 1))
        | none => ((c :: t).takeWhile (fun x => !isWs x)) :: go fuel ((c :: t).dropWhile (fun x => !isWs x))
      else if c = '"' then
        match findSub t (str "\"") with
        | some j => ('"' :: (t.take j ++ ['"'])) :: go fuel (t.drop (j + 1))
        | none => ((c :: t).takeWhile (fun x => !isWs x)) :: go fuel ((c :: t).dropWhile (fun x => !isWs x))
      else if isWs c then go fuel t
      else ((c :: t).takeWhile (fun x => !isWs x)) :: go fuel ((c :: t).dropWhile (fun x => !isWs x))

/-- The `values` string of the `repl` closure in
`convert_unnest_array_to_values`: strip each element, drop empties and `()`,
wrap in parentheses, join with `",\n    "`. -/
def unnestValues (elems : List Str) : Str :=
  joinWith (str ",\n    ")
    (((elems.map pyStrip).filter (fun e => !e.isEmpty && e ≠ str "()")).map
      (fun e => str "(" ++ e ++ str ")"))

/-- Attempt the pattern
`SELECT\s+unnest\s*\(\s*ARRAY\s*\[(.*?)\]\s*\)\s+(\w+)` (IGNORECASE, DOTALL) at
the head of `s`; returns (replacement, rest after the match). -/
def unnestMatchAt (s : Str) : Option (Str × Str) :=
  if startsWithCI (str "select") s then
    let r := s.drop 6
    let run := r.takeWhile isWs
    if run.isEmpty then none
    else
      let r1 := r.drop run.length
      if startsWithCI (str "unnest") r1 then
        match (r1.drop 6).dropWhile isWs with
        | '(' :: r3 =>
          let r4 := r3.dropWhile isWs
          if startsWithCI (str "array") r4 then
            match (r4.drop 5).dropWhile isWs with
            | '[' :: r6 => closeLoop r6.length r6 []
            | _ => none
          else none
        | _ => none
      else none
  else none
where
  /-- Non-greedy `(.*?)\]\s*\)\s+(\w+)`: try each `]` from the left; `inner`
  accumulates the capture so far (in order). -/
  closeLoop : Nat → Str → Str → Option (Str × Str)
    | 0, _, _ => none
    | _, [], _ => none
    | fuel + 1, c :: t, inner =>
      if c = ']' then
        match (t.dropWhile isWs) with
        | ')' :: u =>
          let run := u.takeWhile isWs
          if run.isEmpty then closeLoop fuel t (inner ++ [c])
          else
            let u1 := u.drop run.length
            let col := u1.takeWhile isWordChar
            if col.isEmpty then closeLoop fuel t (inner ++ [c])
            else
              some (str "SELECT\n    " ++ col ++ str "\n  FROM (VALUES\n    "
                ++ unnestValues (unnestTokens inner) ++ str "\n  ) AS t(" ++ col ++ str ")",
                u1.drop col.length)
        | _ => closeLoop fuel t (inner ++ [c])
      else closeLoop fuel t (inner ++ [c])

/-- `convert_unnest_array_to_values` (dialect_converter.py, lines 130–146):
`re.sub` with the `repl` closure, leftmost non-overlapping matches. -/
def convert_unnest_array_to_values (s : Str) : Str :=
  go s.length s
where
  go : Nat → Str → Str
    | 0, s => s
    | fuel + 1, s =>
      match unnestMatchAt s with
      | some (rep, rest) => rep ++ go fuel rest
      | none =>
        match s with
        | [] => []
        | c :: t => c :: go fuel t

/-- The `repl` closure of `convert_generate_series_to_snowflake` given the
regex groups (`stepG = none` when the optional third argument is absent, in
which case the step defaults to `INTERVAL '1 day'`). -/
def genSeriesRepl (startG endG : Str) (stepG : Option Str) (aliasN col : Str) : Str :=
  let start := pyStrip startG
  let endS := pyStrip endG
  let step := match stepG with
    | some st => pyStrip st
    | none => str "INTERVAL '1 day'"
  match intervalFind step with
  | some (n, u) =>
    str "FROM TABLE(GENERATOR(ROWCOUNT => " ++ dateRowCount u start (some endS) n
      ++ str ")) AS g, LATERAL (SELECT " ++ dateProj u n start ++ str " AS " ++ col
      ++ str ") AS " ++ aliasN
  | none =>
    str "FROM TABLE(GENERATOR(ROWCOUNT => " ++ numRowCount start (some endS) step
      ++ str ")) AS g, LATERAL (SELECT " ++ numProj start step ++ str " AS " ++ col
      ++ str ") AS " ++ aliasN

/-- `\s+AS\s+(\w+)\s*\((\w+)\)` at the head of `r`: returns (aliasN, col, rest). -/
def gsAs (r : Str) : Option (Str × Str × Str) :=
  let run := r.takeWhile isWs
  if run.isEmpty then none
  else
    let r1 := r.drop run.length
    if startsWithCI (str "as") r1 then
      let r2 := r1.drop 2
      let run2 := r2.takeWhile isWs
      if run2.isEmpty then none
      else
        let r3 := r2.drop run2.length
        let aliasN := r3.takeWhile isWordChar
        if aliasN.isEmpty then none
        else
          match (r3.drop aliasN.length).dropWhile isWs with
          | '(' :: r5 =>
            let col := r5.takeWhile isWordChar
            if col.isEmpty then none
            else
              match r5.drop col.length with
              | ')' :: rest => some (aliasN, col, rest)
              | _ => none
          | _ => none
    else none

/-- The backtracking over group 2 of the generate_series table-expression
pattern: `([^,]+)\s*(?:,\s*([^\)]+))?\)\s+AS\s+(\w+)\s*\((\w+)\)`, group 2
tried longest-first; the optional step group is tried before its absence.
Returns (group2, optional group3, aliasN, col, rest). -/
def gsTail2 (r : Str) : Option (Str × Option Str × Str × Str × Str) :=
  go (r.takeWhile (· ≠ ',')).length
where
  go : Nat → Option (Str × Option Str × Str × Str × Str)
    | 0 => none
    | n + 1 =>
      let g2 := r.take (n + 1)
      let rest := (r.drop (n + 1)).dropWhile isWs
      let withStep :=
        match rest with
        | ',' :: q =>
          let q1 := q.dropWhile isWs
          let g3 := q1.takeWhile (· ≠ ')')
          if g3.isEmpty then none
          else
            match q1.drop g3.length with
            | ')' :: q2 => (gsAs q2).map (fun a => (g2, some g3, a))
            | _ => none
        | _ => none
      match withStep with
      | some res => some res
      | none =>
        match rest with
        | ')' :: q2 =>
          match (gsAs q2).map (fun a => (g2, (none : Option Str), a)) with
          | some res => some res
          | none => go n
        | _ => go n

/-- Attempt the whole pattern
`FROM\s+generate_series\s*\(\s*([^,]+)\s*,\s*([^,]+)\s*(?:,\s*([^\)]+))?\)\s+AS\s+(\w+)\s*\((\w+)\)`
(IGNORECASE) at the head of `s`; returns (replacement, rest). -/
def gsMatchAt (s : Str) : Option (Str × Str) :=
  if startsWithCI (str "from") s then
    let r := s.drop 4
    let run := r.takeWhile isWs
    if run.isEmpty then none
    else
      let r1 := r.drop run.length
      if startsWithCI (str "generate_series") r1 then
        match (r1.drop 15).dropWhile isWs with
        | '(' :: r3 =>
          let g1 := r3.takeWhile (· ≠ ',')
          if g1.isEmpty then none
          else
            match r3.drop g1.length with
            | ',' :: r5 =>
              match gsTail2 r5 with
              | some (g2, g3, aliasN, col, rest) =>
                some (genSeriesRepl g1 g2 g3 aliasN col, rest)
              | none => none
            | _ => none
        | _ => none
      else none
  else none

/-- `convert_generate_series_to_snowflake` (dialect_converter.py, lines
166–195): `re.sub` with the `repl` closure. -/
def convert_generate_series_to_snowflake (s : Str) : Str :=
  go s.length s
where
  go : Nat → Str → Str
    | 0, s => s
    | fuel + 1, s =>
      match gsMatchAt s with
      | some (rep, rest) => rep ++ go fuel rest
      | none =>
        match s with
        | [] => []
        | c :: t => c :: go fuel t

/-- The three sequential pre-passes of `convert_postgres_to_snowflake` (the
local variable `sql` after line 117). -/
def preprocess (k1 k2 : Nat) (sql : Str) : Str :=
  let s1 := if containsStr (lowerStr sql) (str "crosstab") then handle_crosstab k1 k2 sql
    else sql
  convert_generate_series_to_snowflake (convert_unnest_array_to_values s1)

/-- The body of the `try` block of `convert_postgres_to_snowflake`:
pre-passes, then the external parse capability, then generation with the
overridden serializer. -/
def convertTryBody (parse : Str → Except PyErr Expr) (b : BaseGen) (k1 k2 : Nat)
    (sql : Str) : Except PyErr Str :=
  match parse (preprocess k1 k2 sql) with
  | .error e => .error e
  | .ok ast => genTop b ast

/-- `convert_postgres_to_snowflake` (dialect_converter.py, lines 106–128): on
any exception the current value of the local `sql` — the pre-processed text —
is returned. -/
def convert_postgres_to_snowflake (parse : Str → Except PyErr Expr) (b : BaseGen)
    (k1 k2 : Nat) (sql : Str) : Str :=
  match convertTryBody parse b k1 k2 sql with
  | .ok out => out
  | .error _ => preprocess k1 k2 sql

/-!
## dbt_wrapper.py: replace_table_references
-/

/-- `re.sub(r'/\*.*?\*/', '', s, flags=re.DOTALL)`. -/
def stripBlockComments (s : Str) : Str :=
  go s.length s
where
  go : Nat → Str → Str
    | 0, s => s
    | fuel + 1, s =>
      match findSub s (str "/*") with
      | none => s
      | some i =>
        let rest := s.drop (i + 2)
        match findSub rest (str "*/") with
        | none => s
        | some j => s.take i ++ go fuel (rest.drop (j + 2))

/-- `re.sub(r'\{#.*?#\}', '', s, flags=re.DOTALL)`. -/
def stripJinjaComments (s : Str) : Str :=
  go s.length s
where
  go : Nat → Str → Str
    | 0, s => s
    | fuel + 1, s =>
      match findSub s (str "\x7b#") with
      | none => s
      | some i =>
        let rest := s.drop (i + 2)
        match findSub rest (str "#\x7d") with
        | none => s
        | some j => s.take i ++ go fuel (rest.drop (j + 2))

/-- `(?:\s+\w+)*\s*\(` after the `AS` of a potential CTE definition: consume
`whitespace+word` repetitions greedily, then `\s*` and `(`; returns the rest. -/
def cteStarLoop (r : Str) : Option Str :=
  go r.length r
where
  go : Nat → Str → Option Str
    | 0, _ => none
    | fuel + 1, r =>
      let ws := r.takeWhile isWs
      let r1 := r.drop ws.length
      match r1 with
      | '(' :: rest => some rest
      | c :: t =>
        if !ws.isEmpty && isWordChar c then go fuel (t.dropWhile isWordChar)
        else none
      | [] => none

/-- Attempt `\b(\w+)\s*(?:\([^)]+\))?\s+AS(?:\s+\w+)*\s*\(` (IGNORECASE) at the
head of `s` (word boundary checked by the caller); returns (group 1, rest). -/
def cteMatchAt (s : Str) : Option (Str × Str) :=
  let w := s.takeWhile isWordChar
  if w.isEmpty then none
  else
    let r := s.drop w.length
    let ws1 := r.takeWhile isWs
    let r1 := r.drop ws1.length
    let withParen :=
      match r1 with
      | '(' :: r2 =>
        let inner := r2.takeWhile (· ≠ ')')
        if inner.isEmpty then none
        else
          match r2.drop inner.length with
          | ')' :: r3 =>
            let ws2 := r3.takeWhile isWs
            if ws2.isEmpty then none else asTail (r3.drop ws2.length)
          | _ => none
      | _ => none
    match withParen with
    | some rest => some (w, rest)
    | none =>
      if ws1.isEmpty then none
      else
        match asTail r1 with
        | some rest => some (w, rest)
        | none => none
where
  asTail (r : Str) : Option Str :=
    if startsWithCI (str "as") r then cteStarLoop (r.drop 2) else none

/-- SQL keywords excluded from CTE detection. -/
def cteKeywords : List Str :=
  [str "select", str "insert", str "update", str "delete", str "with", str "case"]

/-- The CTE-name scan of `replace_table_references` (dbt_wrapper.py, lines
205–216): all `finditer` matches of the CTE pattern over the comment-stripped
SQL, lower-cased, keywords excluded. -/
def findCteNames (s : Str) : List Str :=
  go s.length false s
where
  go : Nat → Bool → Str → List Str
    | 0, _, _ => []
    | _, _, [] => []
    | fuel + 1, prevWord, c :: t =>
      if !prevWord && isWordChar c then
        match cteMatchAt (c :: t) with
        | some (w, rest) =>
          if cteKeywords.contains (lowerStr w) then go fuel false rest
          else lowerStr w :: go fuel false rest
        | none => go fuel (isWordChar c) t
      else go fuel (isWordChar c) t

/-- The process-wide external table catalog of `replace_table_references`. -/
def extDefault : List Str :=
  [str "allergie", str "bepaling", str "contact", str "contraindicatie", str "episode",
   str "journaal", str "journaalregel", str "medewerker", str "medicatie", str "metadata",
   str "origineel", str "patient", str "praktijk", str "ruiter", str "verrichting",
   str "verwijzing", str "override_patientenlijst", str "functie", str "medewerker_hisnaam"]

/-- The `replacer` closure of `replace_table_references` (dbt_wrapper.py,
lines 226–255), applied to one match (`m0` = whole match, `kw` = group 1,
`table` = group 2). -/
def tableRefReplacer (cteNames blockTables externalTables : List Str)
    (m0 kw table : Str) : Str :=
  if containsStr table (str "(") then m0
  else if cteNames.contains (lowerStr table) then m0
  else if !blockTables.isEmpty && blockTables.contains (lowerStr table) then m0
  else if containsStr table (str ".") then m0
  else if upperStr table = str "TABLE" then m0
  else if (externalTables.map lowerStr).contains (lowerStr table) then
    kw ++ str " STG.P\x7b\x7bpraktijk_agb\x7d\x7d." ++ table
  else kw ++ str " \x7b\x7b ref('" ++ table ++ str "') \x7d\x7d"

/-- `re.sub(pattern_5, replacer, sql, flags=re.IGNORECASE)`: scan positions
left to right, applying `f` to every non-overlapping match. -/
def sub5 (f : Str → Str → Str → Str) (s : Str) : Str :=
  go s.length false s
where
  go : Nat → Bool → Str → Str
    | 0, _, s => s
    | _, _, [] => []
    | fuel + 1, prevWord, c :: t =>
      if !prevWord && isWordChar c then
        match matchTableRef (c :: t) with
        | some (m0, kw, ident, rest) => f m0 kw ident ++ go fuel true rest
        | none => c :: go fuel (isWordChar c) t
      else c :: go fuel (isWordChar c) t

/-- `replace_table_references` (dbt_wrapper.py, lines 187–257): comment-strip a
copy for CTE detection, then rewrite every pattern-5 match of the original
text via the replacer. -/
def replace_table_references (sql : Str) (externalTables blockTables : Option (List Str)) :
    Str :=
  let blocks := blockTables.getD []
  let ext := externalTables.getD extDefault
  let ctes := findCteNames (stripJinjaComments (stripBlockComments (stripLineComments sql)))
  sub5 (tableRefReplacer ctes blocks ext) sql

/-- A parse capability that always fails (sqlglot raising `ParseError`). -/
def failParse : Str → Except PyErr Expr := fun _ => .error .parseError

/-- A parse capability that always yields an opaque node. -/
def okParse : Str → Except PyErr Expr := fun _ => .ok (.raw (str "SELECT 1"))

/-- An input on which the unnest pre-pass rewrites the text before parsing. -/
def c2input : Str := str "SELECT unnest(ARRAY[1 2]) x"

/-- The unnest pre-pass output for `c2input`. -/
def c2expected : Str := str "SELECT\n    x\n  FROM (VALUES\n    (1),\n    (2)\n  ) AS t(x)"

/-- A `generate_series` table expression without a step argument. -/
def c4input : Str := str "FROM generate_series(1, 10) AS s(a)"

/-!
## Helper lemmas
-/

theorem getD_mem_or {α : Type} (l : List α) (i : Nat) (d : α) :
    l.getD i d ∈ l ∨ l.getD i d = d := by
  induction l generalizing i with
  | nil => right; simp [List.getD]
  | cons a t ih =>
    cases i with
    | zero => left; rw [List.getD_cons_zero]; exact List.mem_cons_self a t
    | succ n =>
      rw [List.getD_cons_succ]
      rcases ih n with h | h
      · exact Or.inl (List.mem_cons_of_mem a h)
      · exact Or.inr h

theorem perm_of_mem_insertEverywhere {α : Type} {a : α} :
    ∀ {l l' : List α}, l' ∈ insertEverywhere a l → l'.Perm (a :: l) := by
  intro l
  induction l with
  | nil =>
    intro l' h
    simp only [insertEverywhere, List.mem_singleton] at h
    rw [h]
  | cons x xs ih =>
    intro l' h
    simp only [insertEverywhere, List.mem_cons, List.mem_map] at h
    rcases h with h | ⟨m, hm, rfl⟩
    · rw [h]
    · exact (List.Perm.cons x (ih hm)).trans (List.Perm.swap a x xs)

theorem perm_of_mem_perms {α : Type} :
    ∀ {l l' : List α}, l' ∈ perms l → l'.Perm l := by
  intro l
  induction l with
  | nil =>
    intro l' h
    simp only [perms, List.mem_singleton] at h
    rw [h]
  | cons x xs ih =>
    intro l' h
    simp only [perms, List.mem_flatMap] at h
    rcases h with ⟨m, hm, hl'⟩
    exact (perm_of_mem_insertEverywhere hl').trans (List.Perm.cons x (ih hm))

/-- Every Python set-enumeration order modelled by `pyPerm` is a permutation of
the canonical enumeration. -/
theorem pyPerm_perm (k : Nat) (xs : List Str) : (pyPerm k xs).Perm xs := by
  unfold pyPerm
  rcases getD_mem_or (perms xs) (k % (perms xs).length) xs with h | h
  · exact perm_of_mem_perms h
  · rw [h]

theorem pySplitWsAux_append_days (n : Str) :
    ∀ cur : Str, (∀ c ∈ n, isWs c = false) → cur.reverse ++ n ≠ [] →
      pySplitWsAux (n ++ str " days") cur = [cur.reverse ++ n, str "days"] := by
  induction n with
  | nil =>
    intro cur _ hne
    cases cur with
    | nil => simp at hne
    | cons a t =>
      show (a :: t).reverse :: pySplitWsAux (str "days") [] = _
      have hd : pySplitWsAux (str "days") [] = [str "days"] := by decide
      rw [hd]
      simp
  | cons c t ih =>
    intro cur hall hne
    have hc : isWs c = false := hall c (List.mem_cons_self c t)
    have hall' : ∀ x ∈ t, isWs x = false := fun x hx => hall x (List.mem_cons_of_mem c hx)
    show pySplitWsAux (c :: (t ++ str " days")) cur = _
    simp only [pySplitWsAux]
    rw [if_neg (by simp [hc])]
    rw [ih (c :: cur) hall' (by simp)]
    simp [List.append_assoc]

theorem pySplitWs_token_days (n : Str) (hne : n ≠ []) (hall : ∀ c ∈ n, isWs c = false) :
    pySplitWs (n ++ str " days") = [n, str "days"] := by
  unfold pySplitWs
  rw [pySplitWsAux_append_days n [] hall (by simpa using hne)]
  simp

theorem pyStripChars_eq_self (chars : List Char) (s : Str)
    (h1 : ∀ c, s.head? = some c → chars.contains c = false)
    (h2 : ∀ c, s.getLast? = some c → chars.contains c = false) :
    pyStripChars chars s = s := by
  unfold pyStripChars
  have hfront : s.dropWhile (chars.contains ·) = s := by
    cases hs : s with
    | nil => rfl
    | cons c t =>
      rw [List.dropWhile_cons]
      rw [h1 c (by rw [hs]; rfl)]
      simp
  rw [hfront]
  cases hr : s.reverse with
  | nil =>
    have : s = [] := by simpa using congrArg List.reverse hr
    simpa using this.symm
  | cons d u =>
    have hd : s.getLast? = some d := by
      rw [List.getLast?_eq_head?_reverse, hr]; rfl
    rw [List.dropWhile_cons, h2 d hd]
    simpa using congrArg List.reverse hr.symm

/-- A successful preamble extraction means every early-return guard of
`parse_crosstab_sql` passed: at least two `$$` blocks, no JOIN in the pivot
statement, and all four regex extractions matched. -/
theorem ctPreamble_success_shape (u : Str) (pre : CtPre) (h : ctPreamble u = some pre) :
    2 ≤ (findDollarBlocks u).length ∧
    containsStr (upperStr ((findDollarBlocks u).getD 1 [])) (str "JOIN") = false ∧
    (searchBetween (str "SELECT") (str "FROM") ((findDollarBlocks u).getD 1 [])).isSome ∧
    (searchBetween (str "FROM") (str "ORDER") ((findDollarBlocks u).getD 1 [])).isSome ∧
    (searchAsCols u).isSome ∧
    (searchBetween (str "SELECT") (str "FROM")
      (ctCteOf ((findDollarBlocks u).getD 0 []))).isSome := by
  unfold ctPreamble at h
  split at h
  case h_2 => simp at h
  case h_1 s0 s1 tail heq =>
    split at h
    case isTrue => simp at h
    case isFalse hj =>
      split at h
      case h_1 => simp at h
      case h_2 pc hsf =>
        split at h
        case h_1 => simp at h
        case h_2 fs hfo =>
          split at h
          case h_1 => simp at h
          case h_2 sa hac =>
            split at h
            case h_1 => simp at h
            case h_2 cs hcs =>
              refine ⟨?_, ?_, ?_, ?_, ?_, ?_⟩
              · rw [heq]; simp [List.length_cons]
              · rw [heq]; simpa using hj
              · rw [heq]; simp [hsf]
              · rw [heq]; simp [hfo]
              · simp [hac]
              · rw [heq]; simp [hcs]

/-- When the preamble fails, `parse_crosstab_sql` returns the empty string. -/
theorem parse_crosstab_of_preamble_none (k1 k2 : Nat) (u : Str)
    (h : ctPreamble u = none) : parse_crosstab_sql k1 k2 u = .ok [] := by
  unfold parse_crosstab_sql
  rw [h]

/-!
## C1
-/

/-- C1 counterexample: on `c1input` the pivot-axis column set has three
elements (`categorie`, `val`, `extra`), yet `parse_crosstab_sql` does not fail:
for every enumeration order the Python set could produce (all `3! = 6`
permutations) it returns a non-empty rewrite, silently picking whichever
element ends up at index 1 as the value column — refuting the claimed hard
failure for more than two pivot-axis columns. -/
theorem c1_three_axis_columns_no_failure :
    ((ctPreamble c1input).map (fun pre => (ctPivotAxisCanon pre).length) = some 3
      ∧ (List.range 6).all (fun k1 => isOkNonEmpty (parse_crosstab_sql k1 0 c1input)) = true)
      := by constructor <;> decide

/-- C1 (amended): `parse_crosstab_sql` computes the dimension and pivot-axis
columns as unordered Python sets — for every enumeration order (`k1`, `k2`) the
lists are permutations of the intersection resp. difference of the input and
declared output column names, with no input-order stability; fewer than two
pivot-axis entries raises an IndexError (`cols_to_pivot[1]`), while two or more
entries (including more than two) always succeed. -/
theorem c1_pivot_axis_amended (k1 k2 : Nat) (sql : Str) (pre : CtPre)
    (h : ctPreamble sql = some pre) :
    (ctPivotAxis k1 pre).Perm (ctPivotAxisCanon pre) ∧
    (ctDims k2 pre).Perm (ctDimsCanon pre) ∧
    ((ctPivotAxis k1 pre).length < 2 →
      parse_crosstab_sql k1 k2 sql = .error .indexError) ∧
    (2 ≤ (ctPivotAxis k1 pre).length →
      ∃ out, parse_crosstab_sql k1 k2 sql = .ok out) := by
  refine ⟨pyPerm_perm k1 _, pyPerm_perm k2 _, ?_, ?_⟩
  · intro hlt
    unfold parse_crosstab_sql
    rw [h]
    simp only [if_pos hlt]
  · intro hge
    unfold parse_crosstab_sql
    rw [h]
    simp only [if_neg (by omega : ¬ (ctPivotAxis k1 pre).length < 2)]
    exact ⟨_, rfl⟩

/-- Witness for C1 (amended) at `c1input` with enumeration order 0. -/
theorem c1_pivot_axis_amended_witness :
    ctPreamble c1input = some c1pre ∧
      ((ctPivotAxis 0 c1pre).Perm (ctPivotAxisCanon c1pre) ∧
       (ctDims 0 c1pre).Perm (ctDimsCanon c1pre) ∧
       ((ctPivotAxis 0 c1pre).length < 2 →
         parse_crosstab_sql 0 0 c1input = .error .indexError) ∧
       (2 ≤ (ctPivotAxis 0 c1pre).length →
         ∃ out, parse_crosstab_sql 0 0 c1input = .ok out)) :=
  ⟨by decide, c1_pivot_axis_amended 0 0 c1input c1pre (by decide)⟩

/-!
## C3
-/

/-- C3 counterexample: a pivot statement containing JOIN makes
`parse_crosstab_sql` return the empty string, and `handle_crosstab` passes that
empty string through — the rejection does not emit the inert placeholder
comment the claim describes. -/
theorem c3_join_rejection_empty_not_placeholder :
    (containsStr (upperStr ((findDollarBlocks (stripLineComments c3input)).getD 1 []))
        (str "JOIN") = true
      ∧ handle_crosstab 0 0 c3input = []
      ∧ crosstabPlaceholder ≠ []) := by
  refine ⟨by decide, by decide, by decide⟩

/-- C3 (amended): a JOIN keyword anywhere in the pivot statement makes
`parse_crosstab_sql` return the empty string (which `handle_crosstab`
substitutes for the whole crosstab block); the inert placeholder comment is
emitted exactly when `parse_crosstab_sql` raises (e.g. the IndexError for
fewer than two pivot-axis columns); a successful parse is passed through
unchanged.  `DISTINCT ON` and top-level WITH clauses are not rejected. -/
theorem c3_rejection_amended :
    (∀ s k1 k2, 2 ≤ (findDollarBlocks s).length →
      containsStr (upperStr ((findDollarBlocks s).getD 1 [])) (str "JOIN") = true →
      parse_crosstab_sql k1 k2 s = .ok []) ∧
    (∀ s k1 k2 e, parse_crosstab_sql k1 k2 (stripLineComments s) = Except.error e →
      handle_crosstab k1 k2 s = crosstabPlaceholder) ∧
    (∀ s k1 k2 out, parse_crosstab_sql k1 k2 (stripLineComments s) = Except.ok out →
      handle_crosstab k1 k2 s = out) := by
  refine ⟨?_, ?_, ?_⟩
  · intro s k1 k2 hlen hjoin
    apply parse_crosstab_of_preamble_none
    unfold ctPreamble
    rcases hb : findDollarBlocks s with _ | ⟨s0, _ | ⟨s1, tail⟩⟩
    · rfl
    · rfl
    · rw [hb] at hjoin
      simp only [List.getD_cons_succ, List.getD_cons_zero] at hjoin
      simp [hjoin]
  · intro s k1 k2 e he
    unfold handle_crosstab
    rw [he]
  · intro s k1 k2 out ho
    unfold handle_crosstab
    rw [ho]

/-- Witness for C3 (amended): the JOIN input yields the empty string; the
one-axis-column input raises and yields the placeholder. -/
theorem c3_rejection_amended_witness :
    (2 ≤ (findDollarBlocks c3input).length
      ∧ parse_crosstab_sql 0 0 c3input = .ok []
      ∧ parse_crosstab_sql 0 0 (stripLineComments cwinput) = .error .indexError
      ∧ handle_crosstab 0 0 cwinput = crosstabPlaceholder) :=
  ⟨by decide,
   c3_rejection_amended.1 c3input 0 0 (by decide) (by decide),
   by rfl,
   c3_rejection_amended.2.1 cwinput 0 0 .indexError (by rfl)⟩

/-!
## C10
-/

/-- C10: every listed failure shape — fewer than two `$$` blocks, a JOIN
substring (case-insensitive) in the pivot statement, or a failed
`SELECT…FROM` / `FROM…ORDER` / `) as … ( … )` extraction — makes
`parse_crosstab_sql` return the empty string without raising, and
`handle_crosstab` substitutes that empty string for the entire input. -/
theorem c10_failure_paths_empty (u s : Str) (k1 k2 : Nat)
    (hu : (findDollarBlocks u).length < 2 ∨
      containsStr (upperStr ((findDollarBlocks u).getD 1 [])) (str "JOIN") = true ∨
      searchBetween (str "SELECT") (str "FROM") ((findDollarBlocks u).getD 1 []) = none ∨
      searchBetween (str "FROM") (str "ORDER") ((findDollarBlocks u).getD 1 []) = none ∨
      searchAsCols u = none ∨
      searchBetween (str "SELECT") (str "FROM")
        (ctCteOf ((findDollarBlocks u).getD 0 [])) = none)
    (hs : (findDollarBlocks (stripLineComments s)).length < 2 ∨
      containsStr (upperStr ((findDollarBlocks (stripLineComments s)).getD 1 []))
        (str "JOIN") = true ∨
      searchBetween (str "SELECT") (str "FROM")
        ((findDollarBlocks (stripLineComments s)).getD 1 []) = none ∨
      searchBetween (str "FROM") (str "ORDER")
        ((findDollarBlocks (stripLineComments s)).getD 1 []) = none ∨
      searchAsCols (stripLineComments s) = none ∨
      searchBetween (str "SELECT") (str "FROM")
        (ctCteOf ((findDollarBlocks (stripLineComments s)).getD 0 [])) = none) :
    parse_crosstab_sql k1 k2 u = .ok [] ∧ handle_crosstab k1 k2 s = [] := by
  have key : ∀ v, ((findDollarBlocks v).length < 2 ∨
      containsStr (upperStr ((findDollarBlocks v).getD 1 [])) (str "JOIN") = true ∨
      searchBetween (str "SELECT") (str "FROM") ((findDollarBlocks v).getD 1 []) = none ∨
      searchBetween (str "FROM") (str "ORDER") ((findDollarBlocks v).getD 1 []) = none ∨
      searchAsCols v = none ∨
      searchBetween (str "SELECT") (str "FROM")
        (ctCteOf ((findDollarBlocks v).getD 0 [])) = none) →
      parse_crosstab_sql k1 k2 v = .ok [] := by
    intro v hv
    cases hp : ctPreamble v with
    | none => exact parse_crosstab_of_preamble_none k1 k2 v hp
    | some pre =>
      exfalso
      obtain ⟨h1, h2, h3, h4, h5, h6⟩ := ctPreamble_success_shape v pre hp
      rcases hv with h | h | h | h | h | h
      · omega
      · rw [h2] at h; exact Bool.false_ne_true h
      · rw [h] at h3; exact absurd h3 (by simp)
      · rw [h] at h4; exact absurd h4 (by simp)
      · rw [h] at h5; exact absurd h5 (by simp)
      · rw [h] at h6; exact absurd h6 (by simp)
  refine ⟨key u hu, ?_⟩
  unfold handle_crosstab
  rw [key (stripLineComments s) hs]

/-- Witness for C10: an input with a single `$$` marker (no block pair). -/
theorem c10_failure_paths_empty_witness :
    ((findDollarBlocks (str "SELECT crosstab $$ x")).length < 2
      ∧ parse_crosstab_sql 0 0 (str "SELECT crosstab $$ x") = .ok []
      ∧ handle_crosstab 0 0 (str "SELECT crosstab $$ x") = []) :=
  ⟨by decide,
   (c10_failure_paths_empty (str "SELECT crosstab $$ x") (str "SELECT crosstab $$ x") 0 0
      (Or.inl (by decide)) (Or.inl (by decide))).1,
   (c10_failure_paths_empty (str "SELECT crosstab $$ x") (str "SELECT crosstab $$ x") 0 0
      (Or.inl (by decide)) (Or.inl (by decide))).2⟩

/-!
## C5, C7, C8: the dialect override layer
-/

/-- The three-argument `generate_series` call serializes its arguments with
`self.sql` and hands them to the series-emission branch. -/
theorem genE_generate_series3 (b : BaseGen) (fuel : Nat) (a0 a1 a2 : Expr) (s e st : Str)
    (h0 : genE b fuel a0 = .ok s) (h1 : genE b fuel a1 = .ok e)
    (h2 : genE b fuel a2 = .ok st) :
    genE b (fuel + 1) (.func (str "generate_series") [a0, a1, a2]) =
      .ok (genSeriesFromParts s (some e) (some st)) := by
  have key : genE b (fuel + 1) (.func (str "generate_series") [a0, a1, a2]) =
      (match genE b fuel a0 with
        | .error err => (Except.error err : Except PyErr Str)
        | .ok start =>
          match genE b fuel a1 with
          | .error err => .error err
          | .ok e1 =>
            match genE b fuel a2 with
            | .error err => .error err
            | .ok e2 => .ok (genSeriesFromParts start (some e1) (some e2))) := rfl
  rw [key, h0, h1, h2]

/-- C5: for a `generate_series` call whose three arguments serialize to
`start`, `end`, `step`: when `step` matches the interval-literal pattern
`INTERVAL '<N> <UNIT>'`, the emitted text is the date series, containing the
row count `DATEDIFF(<UNIT>, start, end) / <N> + 1` and the projection
`DATEADD(<UNIT>, SEQ4() * <N>, start)`; otherwise it is the numeric series,
containing `((end) - (start)) / (step) + 1` and `(start) + SEQ4() * (step)` —
inclusive-end `+ 1`, with no clamping of negative ranges. -/
theorem c5_generate_series_emission (b : BaseGen) (fuel : Nat) (a0 a1 a2 : Expr)
    (s e st : Str) (h0 : genE b fuel a0 = .ok s) (h1 : genE b fuel a1 = .ok e)
    (h2 : genE b fuel a2 = .ok st) :
    (∀ n u, intervalFind st = some (n, u) →
      ∃ out, genE b (fuel + 1) (.func (str "generate_series") [a0, a1, a2]) = .ok out ∧
        out = str "TABLE(GENERATOR(ROWCOUNT => " ++ dateRowCount u s (some e) n
          ++ str ")) AS g, LATERAL (SELECT " ++ dateProj u n s ++ str " AS a) AS s" ∧
        (∃ p q, out = p ++ dateRowCount u s (some e) n ++ q) ∧
        (∃ p q, out = p ++ dateProj u n s ++ q)) ∧
    (intervalFind st = none →
      ∃ out, genE b (fuel + 1) (.func (str "generate_series") [a0, a1, a2]) = .ok out ∧
        out = str "TABLE(GENERATOR(ROWCOUNT => " ++ numRowCount s (some e) st
          ++ str ")) AS g, LATERAL (SELECT " ++ numProj s st ++ str " AS a) AS s" ∧
        (∃ p q, out = p ++ numRowCount s (some e) st ++ q) ∧
        (∃ p q, out = p ++ numProj s st ++ q)) := by
  have hg := genE_generate_series3 b fuel a0 a1 a2 s e st h0 h1 h2
  constructor
  · intro n u hint
    have hout : genSeriesFromParts s (some e) (some st) =
        str "TABLE(GENERATOR(ROWCOUNT => " ++ dateRowCount u s (some e) n
          ++ str ")) AS g, LATERAL (SELECT " ++ dateProj u n s ++ str " AS a) AS s" := by
      unfold genSeriesFromParts
      simp only [Option.getD_some, hint]
    refine ⟨genSeriesFromParts s (some e) (some st), hg, hout,
      ⟨str "TABLE(GENERATOR(ROWCOUNT => ",
       str ")) AS g, LATERAL (SELECT " ++ dateProj u n s ++ str " AS a) AS s", ?_⟩,
      ⟨str "TABLE(GENERATOR(ROWCOUNT => " ++ dateRowCount u s (some e) n
         ++ str ")) AS g, LATERAL (SELECT ",
       str " AS a) AS s", ?_⟩⟩
    · simp only [hout, List.append_assoc]
    · simp only [hout, List.append_assoc]
  · intro hint
    have hout : genSeriesFromParts s (some e) (some st) =
        str "TABLE(GENERATOR(ROWCOUNT => " ++ numRowCount s (some e) st
          ++ str ")) AS g, LATERAL (SELECT " ++ numProj s st ++ str " AS a) AS s" := by
      unfold genSeriesFromParts
      simp only [Option.getD_some, hint]
    refine ⟨genSeriesFromParts s (some e) (some st), hg, hout,
      ⟨str "TABLE(GENERATOR(ROWCOUNT => ",
       str ")) AS g, LATERAL (SELECT " ++ numProj s st ++ str " AS a) AS s", ?_⟩,
      ⟨str "TABLE(GENERATOR(ROWCOUNT => " ++ numRowCount s (some e) st
         ++ str ")) AS g, LATERAL (SELECT ",
       str " AS a) AS s", ?_⟩⟩
    · simp only [hout, List.append_assoc]
    · simp only [hout, List.append_assoc]

/-- Witness for C5 at concrete arguments `1`, `10`, with an interval step and
with a numeric step. -/
theorem c5_generate_series_emission_witness :
    (intervalFind (str "INTERVAL '1 month'") = some (str "1", str "month")
      ∧ ∃ out, genE idBase 2 (.func (str "generate_series")
          [.raw (str "1"), .raw (str "10"), .raw (str "INTERVAL '1 month'")]) = .ok out ∧
        out = str "TABLE(GENERATOR(ROWCOUNT => "
            ++ dateRowCount (str "month") (str "1") (some (str "10")) (str "1")
            ++ str ")) AS g, LATERAL (SELECT "
            ++ dateProj (str "month") (str "1") (str "1") ++ str " AS a) AS s" ∧
        (∃ p q, out = p ++ dateRowCount (str "month") (str "1") (some (str "10")) (str "1") ++ q) ∧
        (∃ p q, out = p ++ dateProj (str "month") (str "1") (str "1") ++ q))
    ∧ (intervalFind (str "2") = none
      ∧ ∃ out, genE idBase 2 (.func (str "generate_series")
          [.raw (str "1"), .raw (str "10"), .raw (str "2")]) = .ok out ∧
        out = str "TABLE(GENERATOR(ROWCOUNT => "
            ++ numRowCount (str "1") (some (str "10")) (str "2")
            ++ str ")) AS g, LATERAL (SELECT "
            ++ numProj (str "1") (str "2") ++ str " AS a) AS s" ∧
        (∃ p q, out = p ++ numRowCount (str "1") (some (str "10")) (str "2") ++ q) ∧
        (∃ p q, out = p ++ numProj (str "1") (str "2") ++ q)) :=
  ⟨⟨by decide,
    (c5_generate_series_emission idBase 1 (.raw (str "1")) (.raw (str "10"))
        (.raw (str "INTERVAL '1 month'")) (str "1") (str "10") (str "INTERVAL '1 month'")
        rfl rfl rfl).1 (str "1") (str "month") (by decide)⟩,
   ⟨by decide,
    (c5_generate_series_emission idBase 1 (.raw (str "1")) (.raw (str "10"))
        (.raw (str "2")) (str "1") (str "10") (str "2")
        rfl rfl rfl).2 (by decide)⟩⟩

/-- C7: casting a string literal to an interval type splits the (quote-
stripped) literal on whitespace: two or more tokens emit `INTERVAL '<literal>'`
verbatim, exactly one token emits `INTERVAL '<token> days'`; in particular
`CAST('<n> days' AS INTERVAL)` round-trips to exactly `INTERVAL '<n> days'`
for any quote-free token `<n>`. -/
theorem c7_interval_cast (b : BaseGen) (fuel : Nat) (name : Str) :
    (2 ≤ (pySplitWs (pyStripChars ['\'', '"'] name)).length →
      genE b (fuel + 1) (.cast (.lit name true) true) =
        .ok (str "INTERVAL '" ++ pyStripChars ['\'', '"'] name ++ str "'")) ∧
    ((pySplitWs (pyStripChars ['\'', '"'] name)).length = 1 →
      genE b (fuel + 1) (.cast (.lit name true) true) =
        .ok (str "INTERVAL '" ++ (pySplitWs (pyStripChars ['\'', '"'] name)).getD 0 []
          ++ str " days'")) ∧
    (∀ n : Str, n ≠ [] →
      (∀ c ∈ n, isWs c = false ∧ (['\'', '"'].contains c) = false) →
      genE b (fuel + 1) (.cast (.lit (n ++ str " days") true) true) =
        .ok (str "INTERVAL '" ++ n ++ str " days'")) := by
  refine ⟨fun h => ?_, fun h => ?_, fun n hne hq => ?_⟩
  · show Except.ok (intervalCastSql b name) = _
    unfold intervalCastSql
    rw [if_pos h]
  · show Except.ok (intervalCastSql b name) = _
    unfold intervalCastSql
    rw [if_neg (by omega), if_pos h]
  · have hval : pyStripChars ['\'', '"'] (n ++ str " days") = n ++ str " days" := by
      refine pyStripChars_eq_self _ _ (fun c hc => ?_) (fun c hc => ?_)
      · cases n with
        | nil => exact absurd rfl hne
        | cons a t =>
          have hac : a = c := by simpa using hc
          exact hac ▸ (hq a (List.mem_cons_self a t)).2
      · have hlast : (n ++ str " days").getLast? = some 's' := by
          rw [@List.getLast?_append_of_ne_nil Char n (str " days") (by decide)]
          decide
        rw [hlast] at hc
        cases hc
        decide
    have hsplit : pySplitWs (pyStripChars ['\'', '"'] (n ++ str " days")) = [n, str "days"] := by
      rw [hval]
      exact pySplitWs_token_days n hne (fun c hc => (hq c hc).1)
    show Except.ok (intervalCastSql b (n ++ str " days")) = _
    unfold intervalCastSql
    rw [hsplit, if_pos (by simp), hval]
    have hlit : str " days" ++ str "'" = str " days'" := by decide
    simp only [List.append_assoc]
    rw [hlit]

/-- Witness for C7: the literal `5 days` (two tokens), the literal `7` (one
token), and the round trip at `n = 5`. -/
theorem c7_interval_cast_witness :
    (2 ≤ (pySplitWs (pyStripChars ['\'', '"'] (str "5 days"))).length
      ∧ genE idBase 1 (.cast (.lit (str "5 days") true) true) =
          .ok (str "INTERVAL '" ++ pyStripChars ['\'', '"'] (str "5 days") ++ str "'"))
    ∧ ((pySplitWs (pyStripChars ['\'', '"'] (str "7"))).length = 1
      ∧ genE idBase 1 (.cast (.lit (str "7") true) true) =
          .ok (str "INTERVAL '" ++ (pySplitWs (pyStripChars ['\'', '"'] (str "7"))).getD 0 []
            ++ str " days'"))
    ∧ genE idBase 1 (.cast (.lit (str "5" ++ str " days") true) true) =
        .ok (str "INTERVAL '" ++ str "5" ++ str " days'") :=
  ⟨⟨by decide, (c7_interval_cast idBase 0 (str "5 days")).1 (by decide)⟩,
   ⟨by decide, (c7_interval_cast idBase 0 (str "7")).2.1 (by decide)⟩,
   (c7_interval_cast idBase 0 (str "5")).2.2 (str "5") (by decide) (by decide)⟩

/-- C8: an equality whose right operand is an `ANY(array)` quantifier is
serialized as `ARRAY_CONTAINS(TO_VARIANT(<left>), <array>)` with the left
operand recursively serialized as the value; any other equality falls through
to the base generator's default serialization. -/
theorem c8_eq_any (b : BaseGen) (fuel : Nat) (l r inner : Expr) (v a : Str)
    (hv : genE b fuel l = .ok v) (ha : genE b fuel inner = .ok a) :
    genE b (fuel + 1) (.eq l (.anyE inner)) =
      .ok (str "ARRAY_CONTAINS(TO_VARIANT(" ++ v ++ str "), " ++ a ++ str ")") ∧
    ((∀ e, r ≠ .anyE e) → genE b (fuel + 1) (.eq l r) = .ok (b.eqD l r)) := by
  constructor
  · have key : genE b (fuel + 1) (.eq l (.anyE inner)) =
        (match genE b fuel l with
          | .error err => (Except.error err : Except PyErr Str)
          | .ok v' =>
            match genE b fuel inner with
            | .error err => .error err
            | .ok a' =>
              .ok (str "ARRAY_CONTAINS(TO_VARIANT(" ++ v' ++ str "), " ++ a' ++ str ")")) := rfl
    rw [key, hv, ha]
  · intro hr
    cases r with
    | anyE e => exact absurd rfl (hr e)
    | raw s => rfl
    | lit x y => rfl
    | cast x y => rfl
    | interval x y => rfl
    | arrayE x => rfl
    | eq x y => rfl
    | func x y => rfl

/-- Witness for C8: `x = ANY(y)` becomes the array-membership predicate,
`x = y` falls through to the base serialization. -/
theorem c8_eq_any_witness :
    genE idBase 2 (.eq (.raw (str "x")) (.anyE (.raw (str "y")))) =
      .ok (str "ARRAY_CONTAINS(TO_VARIANT(" ++ str "x" ++ str "), " ++ str "y" ++ str ")") ∧
    genE idBase 2 (.eq (.raw (str "x")) (.raw (str "y"))) =
      .ok (idBase.eqD (.raw (str "x")) (.raw (str "y"))) :=
  ⟨(c8_eq_any idBase 1 (.raw (str "x")) (.raw (str "y")) (.raw (str "y"))
      (str "x") (str "y") rfl rfl).1,
   (c8_eq_any idBase 1 (.raw (str "x")) (.raw (str "y")) (.raw (str "y"))
      (str "x") (str "y") rfl rfl).2 (fun _ h => Expr.noConfusion h)⟩

/-!
## C4: textual generate_series pre-pass versus the AST override
-/

/-- C4 counterexample: for the same `start = 1`, `end = 10` and an absent step
argument, the textual pre-pass defaults the step to `INTERVAL '1 day'` and
emits a date series (`DATEDIFF`), while the AST override defaults it to
numeric `1` and emits a numeric series — the two paths make different
date-versus-numeric decisions and produce different row-count expressions. -/
theorem c4_absent_step_divergence :
    convert_generate_series_to_snowflake c4input =
      str "FROM TABLE(GENERATOR(ROWCOUNT => DATEDIFF(DAY, 1, 10) / 1 + 1)) AS g, LATERAL (SELECT DATEADD(DAY, SEQ4() * 1, 1) AS a) AS s" ∧
    genTop idBase (.func (str "generate_series") [.raw (str "1"), .raw (str "10")]) =
      .ok (str "TABLE(GENERATOR(ROWCOUNT => ((10) - (1)) / (1) + 1)) AS g, LATERAL (SELECT (1) + SEQ4() * (1) AS a) AS s") := by
  constructor
  · decide
  · rfl

/-- C4 (amended): when the step argument is present, the two `generate_series`
code paths make the same date-versus-numeric decision (the same interval-
pattern search on the stripped step) and produce identical row-count and
projection expressions for identically serialized arguments; when the step is
absent, the textual pre-pass defaults it to `INTERVAL '1 day'` (a date series)
while the AST override defaults it to numeric `1` (a numeric series). -/
theorem c4_step_present_agree (startG endG stepG aliasN col : Str) :
    (∀ n u, intervalFind (pyStrip stepG) = some (n, u) →
      genSeriesRepl startG endG (some stepG) aliasN col =
        str "FROM TABLE(GENERATOR(ROWCOUNT => "
          ++ dateRowCount u (pyStrip startG) (some (pyStrip endG)) n
          ++ str ")) AS g, LATERAL (SELECT " ++ dateProj u n (pyStrip startG)
          ++ str " AS " ++ col ++ str ") AS " ++ aliasN ∧
      genSeriesFromParts (pyStrip startG) (some (pyStrip endG)) (some (pyStrip stepG)) =
        str "TABLE(GENERATOR(ROWCOUNT => "
          ++ dateRowCount u (pyStrip startG) (some (pyStrip endG)) n
          ++ str ")) AS g, LATERAL (SELECT " ++ dateProj u n (pyStrip startG)
          ++ str " AS a) AS s") ∧
    (intervalFind (pyStrip stepG) = none →
      genSeriesRepl startG endG (some stepG) aliasN col =
        str "FROM TABLE(GENERATOR(ROWCOUNT => "
          ++ numRowCount (pyStrip startG) (some (pyStrip endG)) (pyStrip stepG)
          ++ str ")) AS g, LATERAL (SELECT " ++ numProj (pyStrip startG) (pyStrip stepG)
          ++ str " AS " ++ col ++ str ") AS " ++ aliasN ∧
      genSeriesFromParts (pyStrip startG) (some (pyStrip endG)) (some (pyStrip stepG)) =
        str "TABLE(GENERATOR(ROWCOUNT => "
          ++ numRowCount (pyStrip startG) (some (pyStrip endG)) (pyStrip stepG)
          ++ str ")) AS g, LATERAL (SELECT " ++ numProj (pyStrip startG) (pyStrip stepG)
          ++ str " AS a) AS s") ∧
    (intervalFind (str "INTERVAL '1 day'") = some (str "1", str "day") ∧
     intervalFind (str "1") = none ∧
     genSeriesRepl startG endG none aliasN col =
       genSeriesRepl startG endG (some (str "INTERVAL '1 day'")) aliasN col ∧
     genSeriesFromParts (pyStrip startG) (some (pyStrip endG)) none =
       genSeriesFromParts (pyStrip startG) (some (pyStrip endG)) (some (str "1"))) := by
  refine ⟨fun n u hint => ⟨?_, ?_⟩, fun hint => ⟨?_, ?_⟩, by decide, by decide, ?_, ?_⟩
  · unfold genSeriesRepl
    simp only [hint]
  · unfold genSeriesFromParts
    simp only [Option.getD_some, hint]
  · unfold genSeriesRepl
    simp only [hint]
  · unfold genSeriesFromParts
    simp only [Option.getD_some, hint]
  · rfl
  · rfl

/-- Witness for C4 (amended) at `start = 1`, `end = 10`, numeric step `2` and
interval step `INTERVAL '1 month'`. -/
theorem c4_step_present_agree_witness :
    (intervalFind (pyStrip (str "2")) = none ∧
     genSeriesRepl (str "1") (str "10") (some (str "2")) (str "s") (str "a") =
       str "FROM TABLE(GENERATOR(ROWCOUNT => "
         ++ numRowCount (pyStrip (str "1")) (some (pyStrip (str "10"))) (pyStrip (str "2"))
         ++ str ")) AS g, LATERAL (SELECT " ++ numProj (pyStrip (str "1")) (pyStrip (str "2"))
         ++ str " AS " ++ str "a" ++ str ") AS " ++ str "s") ∧
    (intervalFind (pyStrip (str "INTERVAL '1 month'")) = some (str "1", str "month") ∧
     genSeriesFromParts (pyStrip (str "1")) (some (pyStrip (str "10")))
         (some (pyStrip (str "INTERVAL '1 month'"))) =
       str "TABLE(GENERATOR(ROWCOUNT => "
         ++ dateRowCount (str "month") (pyStrip (str "1")) (some (pyStrip (str "10"))) (str "1")
         ++ str ")) AS g, LATERAL (SELECT "
         ++ dateProj (str "month") (str "1") (pyStrip (str "1")) ++ str " AS a) AS s") :=
  ⟨⟨by decide,
    ((c4_step_present_agree (str "1") (str "10") (str "2") (str "s") (str "a")).2.1
      (by decide)).1⟩,
   ⟨by decide,
    ((c4_step_present_agree (str "1") (str "10") (str "INTERVAL '1 month'") (str "s")
        (str "a")).1 (str "1") (str "month") (by decide)).2⟩⟩

/-!
## C2, C9: convert_postgres_to_snowflake failure behaviour and totality
-/

/-- C2 counterexample: on an input the unnest pre-pass rewrites, a failing
parse capability makes `convert_postgres_to_snowflake` return the
pre-processed text — not the original, untranslated input. -/
theorem c2_failure_not_original :
    convert_postgres_to_snowflake failParse idBase 0 0 c2input = c2expected ∧
    c2expected ≠ c2input := by
  constructor
  · decide
  · decide

/-- C2 (amended): when the parse capability (or the generator) raises, the
function returns the current value of its local `sql` — the text after the
crosstab, unnest and generate_series pre-passes; that equals the original
input exactly when no pre-pass rewrote it. -/
theorem c2_failure_returns_preprocessed (parse : Str → Except PyErr Expr) (b : BaseGen)
    (k1 k2 : Nat) (sql : Str) (e : PyErr)
    (h : convertTryBody parse b k1 k2 sql = .error e) :
    convert_postgres_to_snowflake parse b k1 k2 sql = preprocess k1 k2 sql ∧
    (preprocess k1 k2 sql = sql → convert_postgres_to_snowflake parse b k1 k2 sql = sql) := by
  unfold convert_postgres_to_snowflake
  rw [h]
  exact ⟨rfl, fun hp => hp⟩

/-- Witness for C2 (amended): on `%%%` no pre-pass fires, so the failure
returns the original text unchanged. -/
theorem c2_failure_returns_preprocessed_witness :
    convertTryBody failParse idBase 0 0 (str "%%%") = .error .parseError ∧
    convert_postgres_to_snowflake failParse idBase 0 0 (str "%%%") = preprocess 0 0 (str "%%%") ∧
    convert_postgres_to_snowflake failParse idBase 0 0 (str "%%%") = str "%%%" :=
  ⟨by rfl,
   (c2_failure_returns_preprocessed failParse idBase 0 0 (str "%%%") .parseError (by rfl)).1,
   (c2_failure_returns_preprocessed failParse idBase 0 0 (str "%%%") .parseError (by rfl)).2
     (by rfl)⟩

/-- C9: `convert_postgres_to_snowflake` is total — the try/except wrapper
absorbs every exception of the pre-passes, the parse capability and the
generator: the result is the generated text on success and the pre-processed
local `sql` on any exception, and a result always exists. -/
theorem c9_convert_total (parse : Str → Except PyErr Expr) (b : BaseGen)
    (k1 k2 : Nat) (sql : Str) :
    (∀ e, convertTryBody parse b k1 k2 sql = .error e →
      convert_postgres_to_snowflake parse b k1 k2 sql = preprocess k1 k2 sql) ∧
    (∀ out, convertTryBody parse b k1 k2 sql = .ok out →
      convert_postgres_to_snowflake parse b k1 k2 sql = out) ∧
    (∃ out, convert_postgres_to_snowflake parse b k1 k2 sql = out) := by
  refine ⟨fun e he => ?_, fun out ho => ?_, ⟨_, rfl⟩⟩
  · unfold convert_postgres_to_snowflake
    rw [he]
  · unfold convert_postgres_to_snowflake
    rw [ho]

/-- Witness for C9: both a failing and a succeeding capability produce a
result without an escaping exception. -/
theorem c9_convert_total_witness :
    (convertTryBody failParse idBase 0 0 (str "SELECT 1") = .error .parseError ∧
     convert_postgres_to_snowflake failParse idBase 0 0 (str "SELECT 1") =
       preprocess 0 0 (str "SELECT 1")) ∧
    (convertTryBody okParse idBase 0 0 (str "SELECT 1") = .ok (str "SELECT 1") ∧
     convert_postgres_to_snowflake okParse idBase 0 0 (str "SELECT 1") = str "SELECT 1") :=
  ⟨⟨by rfl,
    (c9_convert_total failParse idBase 0 0 (str "SELECT 1")).1 .parseError (by rfl)⟩,
   ⟨by rfl,
    (c9_convert_total okParse idBase 0 0 (str "SELECT 1")).2.1 (str "SELECT 1") (by rfl)⟩⟩

/-!
## C6: table-reference rewriting
-/

/-- C6 counterexample: the negative lookahead of pattern 5 is `\s*\.` (and
`\s*\(`), not an immediate-character test — `orders` followed by whitespace
and a dot is excluded from rewriting, although the claim (identifier not
immediately followed by `.`) requires it to become a model reference, as the
same identifier without the trailing ` .x` does. -/
theorem c6_ws_before_dot_divergence :
    replace_table_references (str "FROM orders .x") none none = str "FROM orders .x" ∧
    replace_table_references (str "FROM orders") none none =
      str "FROM \x7b\x7b ref('orders') \x7d\x7d" := by
  constructor
  · decide
  · decide

/-- C6 (amended): for every identifier the scan matches after FROM/JOIN
(excluding JOIN LATERAL forms and identifiers followed — possibly after
whitespace — by `.` or `(`, or immediately by `::`), the replacer leaves CTE
names, block-table names and the literal keyword TABLE unchanged, rewrites
members of the external catalog (case-insensitively) to the schema-qualified
form, and rewrites everything else to a dbt `ref`. -/
theorem c6_table_reference_amended (cte blocks ext : List Str) (m0 kw table : Str)
    (hparen : containsStr table (str "(") = false)
    (hdot : containsStr table (str ".") = false) :
    ((cte.contains (lowerStr table) = true ∨
      (blocks.isEmpty = false ∧ blocks.contains (lowerStr table) = true) ∨
      upperStr table = str "TABLE") →
      tableRefReplacer cte blocks ext m0 kw table = m0) ∧
    (cte.contains (lowerStr table) = false →
      (blocks.isEmpty = true ∨ blocks.contains (lowerStr table) = false) →
      upperStr table ≠ str "TABLE" →
      (ext.map lowerStr).contains (lowerStr table) = true →
      tableRefReplacer cte blocks ext m0 kw table =
        kw ++ str " STG.P\x7b\x7bpraktijk_agb\x7d\x7d." ++ table) ∧
    (cte.contains (lowerStr table) = false →
      (blocks.isEmpty = true ∨ blocks.contains (lowerStr table) = false) →
      upperStr table ≠ str "TABLE" →
      (ext.map lowerStr).contains (lowerStr table) = false →
      tableRefReplacer cte blocks ext m0 kw table =
        kw ++ str " \x7b\x7b ref('" ++ table ++ str "') \x7d\x7d") := by
  have hbneg : ∀ (blocks' : List Str), blocks'.isEmpty = true ∨
      blocks'.contains (lowerStr table) = false →
      ¬((!blocks'.isEmpty && blocks'.contains (lowerStr table)) = true) := by
    intro blocks' h2
    rcases h2 with h2 | h2 <;> simp only [h2] <;> simp
  refine ⟨fun h => ?_, fun h1 h2 h3 h4 => ?_, fun h1 h2 h3 h4 => ?_⟩
  · rcases h with h | ⟨hb1, hb2⟩ | h
    · unfold tableRefReplacer
      rw [if_neg (by simp [hparen]), if_pos h]
    · unfold tableRefReplacer
      rw [if_neg (by simp [hparen])]
      by_cases hc : cte.contains (lowerStr table) = true
      · rw [if_pos hc]
      · rw [if_neg hc, if_pos (by simp only [hb1, hb2]; simp)]
    · unfold tableRefReplacer
      rw [if_neg (by simp [hparen])]
      by_cases hc : cte.contains (lowerStr table) = true
      · rw [if_pos hc]
      · rw [if_neg hc]
        by_cases hb : (!blocks.isEmpty && blocks.contains (lowerStr table)) = true
        · rw [if_pos hb]
        · rw [if_neg hb, if_neg (by simp [hdot]), if_pos h]
  · unfold tableRefReplacer
    rw [if_neg (by simp [hparen]), if_neg (by simp only [h1]; simp), if_neg (hbneg blocks h2),
      if_neg (by simp [hdot]), if_neg h3, if_pos h4]
  · unfold tableRefReplacer
    rw [if_neg (by simp [hparen]), if_neg (by simp only [h1]; simp), if_neg (hbneg blocks h2),
      if_neg (by simp [hdot]), if_neg h3, if_neg (by simp only [h4]; simp)]

/-- Witness for C6 (amended): a CTE name is kept, `patient` goes to the
external schema, `orders` becomes a model reference. -/
theorem c6_table_reference_amended_witness :
    (tableRefReplacer [str "cte1"] [] extDefault (str "FROM cte1") (str "FROM") (str "cte1")
        = str "FROM cte1") ∧
    (tableRefReplacer [] [] extDefault (str "FROM patient") (str "FROM") (str "patient") =
      str "FROM" ++ str " STG.P\x7b\x7bpraktijk_agb\x7d\x7d." ++ str "patient") ∧
    (tableRefReplacer [] [] extDefault (str "FROM orders") (str "FROM") (str "orders") =
      str "FROM" ++ str " \x7b\x7b ref('" ++ str "orders" ++ str "') \x7d\x7d") :=
  ⟨(c6_table_reference_amended [str "cte1"] [] extDefault (str "FROM cte1") (str "FROM")
      (str "cte1") (by decide) (by decide)).1 (Or.inl (by decide)),
   (c6_table_reference_amended [] [] extDefault (str "FROM patient") (str "FROM")
      (str "patient") (by decide) (by decide)).2.1 (by decide) (Or.inl (by decide))
      (by decide) (by decide),
   (c6_table_reference_amended [] [] extDefault (str "FROM orders") (str "FROM")
      (str "orders") (by decide) (by decide)).2.2 (by decide) (Or.inl (by decide))
      (by decide) (by decide)⟩

end SqlTrans
